import Mathlib

/-
Verification of the Ollama model wrapper module
(src/agentscope/models/ollama_model.py).

The module is a thin adaptation layer over an external client: each
adapter merges per-call options with constructor defaults, invokes the
external endpoint, wraps the reply in a response envelope and records the
invocation with the monitor.  We embed the Python code shallowly:
dictionaries become association lists over a JSON-like value type, the
external client becomes an explicit reply argument, and the side effects
(invocation records, monitor updates) become an explicit event list.
-/

set_option autoImplicit false

namespace Ollama

/-- A Python-like JSON value, as manipulated by the ollama model wrappers.
Numbers that appear as floating point literals in replies are carried as
rationals; the wrappers never compute with them, only pass them through. -/
inductive Value where
  | null : Value
  | bool : Bool → Value
  | int : Int → Value
  | num : Rat → Value
  | str : String → Value
  | arr : List Value → Value
  | obj : List (String × Value) → Value


/-- A Python dict, in insertion order. -/
abbrev Dict := List (String × Value)

/-- Lookup of a key in a dict (first matching entry). -/
def lookupKey : Dict → String → Option Value
  | [], _ => none
  | (k, v) :: rest, key => if k = key then some v else lookupKey rest key

/-- Python dict assignment d[key] = val: overwrite in place if the key is
present, append otherwise. -/
def insertKey : Dict → String → Value → Dict
  | [], key, val => [(key, val)]
  | (k, v) :: rest, key, val =>
    if k = key then (k, val) :: rest else (k, v) :: insertKey rest key val

/-- The Python merge of two dicts, as in the source's
options = \x7b**self.options, **options\x7d: start from the first dict and
overwrite with every entry of the second. -/
def mergeDicts (a b : Dict) : Dict :=
  b.foldl (fun acc kv => insertKey acc kv.1 kv.2) a

/-- The Python exceptions the wrapper code can raise on the inputs the
claims range over: KeyError from indexing a missing key, TypeError from
indexing a non-dict or unpacking None as a mapping. -/
inductive PyError where
  | keyError : String → PyError
  | typeError : PyError


/-- Python subscription v[key]: KeyError when the key is absent from a
dict, TypeError when the value is not a dict. -/
def getItem : Value → String → Except PyError Value
  | .obj d, key =>
    match lookupKey d key with
    | some v => .ok v
    | none => .error (.keyError key)
  | _, _ => .error .typeError

/-- Python membership test key in v, for dict values. -/
def containsKey (v : Value) (key : String) : Bool :=
  match v with
  | .obj d => (lookupKey d key).isSome
  | _ => false

/-- Python v.get(key, default) for dict values. -/
def getDefault (v : Value) (key : String) (dflt : Value) : Value :=
  match v with
  | .obj d => (lookupKey d key).getD dflt
  | _ => dflt

/-- The ChatUsage record built by the wrappers from
response.get("prompt_eval_count", 0) and response.get("eval_count", 0). -/
structure ChatUsage where
  prompt_tokens : Value
  completion_tokens : Value


/-- The observable side effects of one adapter call: a call to
monitor.update_text_and_embedding_tokens (with the keyword arguments it
was given) or a call to self._save_model_invocation. -/
inductive Event where
  | monitorUpdate (model_name : String)
      (prompt_tokens completion_tokens : Option Value)
  | saveInvocation (arguments : Value) (response : Value)
      (usage : Option ChatUsage)


/-- Whether an event is an invocation record. -/
def Event.isSave : Event → Bool
  | .saveInvocation _ _ _ => true
  | _ => false

/-- The ModelResponse envelope fields the non-streaming paths populate. -/
structure ModelResponse where
  text : Option Value
  embedding : Option Value
  raw : Value


/-- Result of one adapter call.  earlyError: the call failed while
preparing parameters, before the external client was invoked.  callError:
the client was invoked with the given request, the listed events happened,
then the call raised.  success: request sent, envelope returned, events
happened. -/
inductive CallResult where
  | earlyError : PyError → CallResult
  | callError : Value → List Event → PyError → CallResult
  | success : Value → ModelResponse → List Event → CallResult


/-- The option-merge step shared by all three call methods:
if options is None: options = self.options
else: options = \x7b**self.options, **options\x7d.
Unpacking a None self.options as a mapping raises TypeError. -/
def mergeOptions (selfOptions callOptions : Option Dict) :
    Except PyError (Option Dict) :=
  match callOptions with
  | none => .ok selfOptions
  | some o =>
    match selfOptions with
    | some s => .ok (some (mergeDicts s o))
    | none => .error .typeError

/-- keep_alive = keep_alive or self.keep_alive: Python or, so a supplied
empty string is falsy and falls back to the constructor default. -/
def resolveKeepAlive (callKeepAlive : Option String) (selfKeepAlive : String) :
    String :=
  match callKeepAlive with
  | some s => if s = "" then selfKeepAlive else s
  | none => selfKeepAlive

/-- An optional options dict as the value placed in the request. -/
def optionsValue : Option Dict → Value
  | none => .null
  | some d => .obj d

/-- Usage formatting shared by the chat and generation wrappers:
a ChatUsage is built exactly when both prompt_eval_count and eval_count
are present in the response. -/
def formatUsage (response : Value) : Option ChatUsage :=
  if containsKey response "prompt_eval_count" && containsKey response "eval_count"
  then some ⟨getDefault response "prompt_eval_count" (.int 0),
             getDefault response "eval_count" (.int 0)⟩
  else none

namespace OllamaChatWrapper

/-- The kwargs dict the chat call sends to client.chat and also records as
the invocation arguments. -/
def chatKwargs (model_name : String) (messages : Value) (stream : Bool)
    (options : Option Dict) (keep_alive : String) : Value :=
  .obj [("model", .str model_name), ("messages", messages),
        ("stream", .bool stream), ("options", optionsValue options),
        ("keep_alive", .str keep_alive)]

/-- OllamaChatWrapper._save_model_invocation_and_update_monitor: build the
usage record, update the monitor (with only the model name) when usage is
present, then save the invocation. -/
def saveAndUpdateMonitor (model_name : String) (kwargs response : Value) :
    List Event :=
  let usage := formatUsage response
  (match usage with
   | some _ => [Event.monitorUpdate model_name none none]
   | none => []) ++ [Event.saveInvocation kwargs response usage]

/-- The non-streaming branch of OllamaChatWrapper.__call__: prepare
parameters, send the request, record invocation and monitor, then return
the envelope with text response["message"]["content"] and raw response. -/
def call (selfStream : Bool) (selfOptions : Option Dict)
    (selfKeepAlive : String) (model_name : String) (messages : Value)
    (stream : Option Bool) (options : Option Dict)
    (keep_alive : Option String) (reply : Value) : CallResult :=
  match mergeOptions selfOptions options with
  | .error e => .earlyError e
  | .ok opts =>
    let ka := resolveKeepAlive keep_alive selfKeepAlive
    let st := stream.getD selfStream
    let kwargs := chatKwargs model_name messages st opts ka
    let events := saveAndUpdateMonitor model_name kwargs reply
    match getItem reply "message" with
    | .error e => .callError kwargs events e
    | .ok m =>
      match getItem m "content" with
      | .error e => .callError kwargs events e
      | .ok t => .success kwargs ⟨some t, none, reply⟩ events

/-- One loop step of the streaming generator: chunk["message"]["content"]
must exist and be a string (text += raises TypeError otherwise). -/
def getContent (chunk : Value) : Except PyError String :=
  match getItem chunk "message" with
  | .error e => .error e
  | .ok m =>
    match getItem m "content" with
    | .error e => .error e
    | .ok (.str s) => .ok s
    | .ok _ => .error .typeError

/-- The for-loop of the streaming generator: returns the texts yielded, the
accumulated text, the last chunk consumed, and the error aborting the loop
if any. -/
def streamLoop : List Value → String → Value →
    List String × String × Value × Option PyError
  | [], text, last => ([], text, last, none)
  | c :: rest, text, last =>
    match getContent c with
    | .error e => ([], text, last, some e)
    | .ok s =>
      let t := text ++ s
      let r := streamLoop rest t c
      (t :: r.1, r.2)

/-- last_chunk["message"]["content"] = text: index the message field (a
KeyError on the initial empty placeholder dict) and overwrite its content
field with the accumulated text. -/
def replaceLastChunk (last : Value) (text : String) : Except PyError Value :=
  match last with
  | .obj d =>
    match lookupKey d "message" with
    | some (.obj m) =>
      .ok (.obj (insertKey d "message"
        (.obj (insertKey m "content" (.str text)))))
    | some _ => .error .typeError
    | none => .error (.keyError "message")
  | _ => .error .typeError

/-- What consuming the streaming generator to exhaustion produces: the
yielded cumulative texts, the events performed at exhaustion, and the
error the consumption raises if any. -/
structure StreamOutcome where
  yields : List String
  events : List Event
  error : Option PyError


/-- Full behaviour of the generator defined inside the streaming branch:
iterate over the chunks yielding the accumulated text, then replace the
last chunk's content with the full text and call
_save_model_invocation_and_update_monitor once. -/
def runGenerator (model_name : String) (kwargs : Value)
    (chunks : List Value) : StreamOutcome :=
  let r := streamLoop chunks "" (.obj [])
  match r.2.2.2 with
  | some e => ⟨r.1, [], some e⟩
  | none =>
    match replaceLastChunk r.2.2.1 r.2.1 with
    | .error e => ⟨r.1, [], some e⟩
    | .ok chunk =>
      ⟨r.1, saveAndUpdateMonitor model_name kwargs chunk, none⟩

/-- The streaming branch of OllamaChatWrapper.__call__: prepare parameters
and return the generator's behaviour over the chunk stream the client
yields, together with the kwargs sent to the client. -/
def callStream (selfStream : Bool) (selfOptions : Option Dict)
    (selfKeepAlive : String) (model_name : String) (messages : Value)
    (stream : Option Bool) (options : Option Dict)
    (keep_alive : Option String) (chunks : List Value) :
    Except PyError (Value × StreamOutcome) :=
  match mergeOptions selfOptions options with
  | .error e => .error e
  | .ok opts =>
    let ka := resolveKeepAlive keep_alive selfKeepAlive
    let st := stream.getD selfStream
    let kwargs := chatKwargs model_name messages st opts ka
    .ok (kwargs, runGenerator model_name kwargs chunks)

end OllamaChatWrapper

namespace OllamaEmbeddingWrapper

/-- The arguments the embedding call sends to client.embeddings and
records as the invocation arguments. -/
def embeddingArgs (model_name prompt : String) (options : Option Dict)
    (keep_alive : String) : Value :=
  .obj [("model", .str model_name), ("prompt", .str prompt),
        ("options", optionsValue options), ("keep_alive", .str keep_alive)]

/-- OllamaEmbeddingWrapper.__call__: prepare parameters, send the request,
save the invocation (no usage), update the monitor unconditionally with
only the model name, and return the envelope with embedding
[response["embedding"]] and raw response. -/
def call (selfOptions : Option Dict) (selfKeepAlive : String)
    (model_name prompt : String) (options : Option Dict)
    (keep_alive : Option String) (reply : Value) : CallResult :=
  match mergeOptions selfOptions options with
  | .error e => .earlyError e
  | .ok opts =>
    let ka := resolveKeepAlive keep_alive selfKeepAlive
    let args := embeddingArgs model_name prompt opts ka
    let events := [Event.saveInvocation args reply none,
                   Event.monitorUpdate model_name none none]
    match getItem reply "embedding" with
    | .error e => .callError args events e
    | .ok v => .success args ⟨none, some (.arr [v]), reply⟩ events

end OllamaEmbeddingWrapper

namespace OllamaGenerationWrapper

/-- The arguments the generation call sends to client.generate and records
as the invocation arguments. -/
def generationArgs (model_name prompt : String) (options : Option Dict)
    (keep_alive : String) : Value :=
  .obj [("model", .str model_name), ("prompt", .str prompt),
        ("options", optionsValue options), ("keep_alive", .str keep_alive)]

/-- OllamaGenerationWrapper.__call__: prepare parameters, send the
request, build the usage record when both counters are present, save the
invocation, update the monitor with explicit token counts when usage is
present, and return the envelope with text response["response"] and raw
response. -/
def call (selfOptions : Option Dict) (selfKeepAlive : String)
    (model_name prompt : String) (options : Option Dict)
    (keep_alive : Option String) (reply : Value) : CallResult :=
  match mergeOptions selfOptions options with
  | .error e => .earlyError e
  | .ok opts =>
    let ka := resolveKeepAlive keep_alive selfKeepAlive
    let args := generationArgs model_name prompt opts ka
    let usage := formatUsage reply
    let events := [Event.saveInvocation args reply usage] ++
      (match usage with
       | some _ => [Event.monitorUpdate model_name
           (some (getDefault reply "prompt_eval_count" (.int 0)))
           (some (getDefault reply "eval_count" (.int 0)))]
       | none => [])
    match getItem reply "response" with
    | .error e => .callError args events e
    | .ok t => .success args ⟨some t, none, reply⟩ events

end OllamaGenerationWrapper

/-- The request an adapter call sent to the external client, when it got
far enough to send one. -/
def CallResult.request? : CallResult → Option Value
  | .earlyError _ => none
  | .callError r _ _ => some r
  | .success r _ _ => some r

/-- Observation helper: the message/content strings of a chunk stream,
when every chunk carries one. -/
def chunksContents : List Value → Option (List String)
  | [] => some []
  | c :: rest =>
    match OllamaChatWrapper.getContent c with
    | .ok s => (chunksContents rest).map (s :: ·)
    | .error _ => none

/-- Observation helper: the cumulative concatenations of a list of
strings, starting from an already accumulated text t. -/
def cumFrom (t : String) : List String → List String
  | [] => []
  | s :: rest => (t ++ s) :: cumFrom (t ++ s) rest

/-- Observation helper: the concatenation of a list of strings. -/
def concatAll : List String → String
  | [] => ""
  | s :: rest => s ++ concatAll rest

theorem lookupKey_insertKey_self (d : Dict) (k : String) (v : Value) :
    lookupKey (insertKey d k v) k = some v := by
  induction d with
  | nil => simp [insertKey, lookupKey]
  | cons e rest ih =>
    obtain ⟨a, b⟩ := e
    by_cases h : a = k
    · subst h; simp [insertKey, lookupKey]
    · simp [insertKey, h, lookupKey, ih]

theorem lookupKey_insertKey_other (d : Dict) (k k' : String) (v : Value)
    (h : k ≠ k') : lookupKey (insertKey d k v) k' = lookupKey d k' := by
  induction d with
  | nil => simp [insertKey, lookupKey, h]
  | cons e rest ih =>
    obtain ⟨a, b⟩ := e
    by_cases ha : a = k
    · subst ha; simp [insertKey, lookupKey, h]
    · simp [insertKey, ha, lookupKey, ih]

theorem lookupKey_eq_none_of_not_mem (d : Dict) (k : String)
    (h : k ∉ d.map Prod.fst) : lookupKey d k = none := by
  induction d with
  | nil => rfl
  | cons e rest ih =>
    obtain ⟨a, b⟩ := e
    simp only [List.map_cons, List.mem_cons, not_or] at h
    have ha : a ≠ k := fun hh => h.1 hh.symm
    simp [lookupKey, ha, ih h.2]

theorem mergeDicts_cons (a : Dict) (e : String × Value) (b : Dict) :
    mergeDicts a (e :: b) = mergeDicts (insertKey a e.1 e.2) b := rfl

theorem lookupKey_mergeDicts_of_none (a b : Dict) (k : String)
    (h : lookupKey b k = none) :
    lookupKey (mergeDicts a b) k = lookupKey a k := by
  induction b generalizing a with
  | nil => rfl
  | cons e rest ih =>
    obtain ⟨k0, v0⟩ := e
    rw [mergeDicts_cons]
    simp only [lookupKey] at h
    by_cases hk : k0 = k
    · simp [hk] at h
    · rw [if_neg hk] at h
      rw [ih _ h, lookupKey_insertKey_other _ _ _ _ hk]

theorem lookupKey_mergeDicts_of_some (a b : Dict) (k : String) (v : Value)
    (hnd : (b.map Prod.fst).Nodup) (h : lookupKey b k = some v) :
    lookupKey (mergeDicts a b) k = some v := by
  induction b generalizing a with
  | nil => simp [lookupKey] at h
  | cons e rest ih =>
    obtain ⟨k0, v0⟩ := e
    simp only [List.map_cons, List.nodup_cons] at hnd
    rw [mergeDicts_cons]
    simp only [lookupKey] at h
    by_cases hk : k0 = k
    · subst hk
      rw [if_pos rfl] at h
      have hrest : lookupKey rest k0 = none :=
        lookupKey_eq_none_of_not_mem _ _ hnd.1
      rw [lookupKey_mergeDicts_of_none _ _ _ hrest,
        lookupKey_insertKey_self]
      exact h.symm ▸ rfl
    · rw [if_neg hk] at h
      exact ih _ hnd.2 h

theorem chat_call_request (selfStream : Bool) (selfOptions : Option Dict)
    (selfKA name : String) (messages reply : Value) (streamArg : Option Bool)
    (callOptions : Option Dict) (kaArg : Option String) (opts : Option Dict)
    (hm : mergeOptions selfOptions callOptions = .ok opts) :
    (OllamaChatWrapper.call selfStream selfOptions selfKA name messages
        streamArg callOptions kaArg reply).request? =
      some (OllamaChatWrapper.chatKwargs name messages
        (streamArg.getD selfStream) opts (resolveKeepAlive kaArg selfKA)) := by
  unfold OllamaChatWrapper.call
  rw [hm]
  dsimp only
  rcases getItem reply "message" with e | m
  · rfl
  · dsimp only
    rcases getItem m "content" with e | t <;> rfl

theorem embedding_call_request (selfOptions : Option Dict)
    (selfKA name prompt : String) (reply : Value)
    (callOptions : Option Dict) (kaArg : Option String) (opts : Option Dict)
    (hm : mergeOptions selfOptions callOptions = .ok opts) :
    (OllamaEmbeddingWrapper.call selfOptions selfKA name prompt
        callOptions kaArg reply).request? =
      some (OllamaEmbeddingWrapper.embeddingArgs name prompt opts
        (resolveKeepAlive kaArg selfKA)) := by
  unfold OllamaEmbeddingWrapper.call
  rw [hm]
  rcases getItem reply "embedding" with e | v <;> rfl

theorem generation_call_request (selfOptions : Option Dict)
    (selfKA name prompt : String) (reply : Value)
    (callOptions : Option Dict) (kaArg : Option String) (opts : Option Dict)
    (hm : mergeOptions selfOptions callOptions = .ok opts) :
    (OllamaGenerationWrapper.call selfOptions selfKA name prompt
        callOptions kaArg reply).request? =
      some (OllamaGenerationWrapper.generationArgs name prompt opts
        (resolveKeepAlive kaArg selfKA)) := by
  unfold OllamaGenerationWrapper.call
  rw [hm]
  rcases getItem reply "response" with e | t <;> rfl

/-- Claim C2: for every chat, embedding or generation adapter call, the
effective options mapping passed to the external client equals the
constructor defaults with the call-supplied keys overwritten: a key
present only in the call mapping is added, the call value wins on
conflict, a key absent from the call mapping keeps its default value, and
with no call-time options the constructor defaults are used unchanged. -/
theorem claim_C2 (dflt o : Dict) (hnd : (o.map Prod.fst).Nodup) :
    mergeOptions (some dflt) (some o) = .ok (some (mergeDicts dflt o)) ∧
    (∀ k v, lookupKey o k = some v →
      lookupKey (mergeDicts dflt o) k = some v) ∧
    (∀ k, lookupKey o k = none →
      lookupKey (mergeDicts dflt o) k = lookupKey dflt k) ∧
    (∀ s : Option Dict, mergeOptions s none = .ok s) ∧
    (∀ (selfStream : Bool) (selfKA name prompt : String)
        (messages reply : Value) (streamArg : Option Bool)
        (kaArg : Option String),
      (OllamaChatWrapper.call selfStream (some dflt) selfKA name messages
          streamArg (some o) kaArg reply).request? =
        some (OllamaChatWrapper.chatKwargs name messages
          (streamArg.getD selfStream) (some (mergeDicts dflt o))
          (resolveKeepAlive kaArg selfKA)) ∧
      (OllamaEmbeddingWrapper.call (some dflt) selfKA name prompt (some o)
          kaArg reply).request? =
        some (OllamaEmbeddingWrapper.embeddingArgs name prompt
          (some (mergeDicts dflt o)) (resolveKeepAlive kaArg selfKA)) ∧
      (OllamaGenerationWrapper.call (some dflt) selfKA name prompt (some o)
          kaArg reply).request? =
        some (OllamaGenerationWrapper.generationArgs name prompt
          (some (mergeDicts dflt o)) (resolveKeepAlive kaArg selfKA))) :=
  ⟨rfl,
   fun k v h => lookupKey_mergeDicts_of_some dflt o k v hnd h,
   fun k h => lookupKey_mergeDicts_of_none dflt o k h,
   fun _ => rfl,
   fun selfStream selfKA name prompt messages reply streamArg kaArg =>
     ⟨chat_call_request selfStream (some dflt) selfKA name messages reply
        streamArg (some o) kaArg (some (mergeDicts dflt o)) rfl,
      embedding_call_request (some dflt) selfKA name prompt reply (some o)
        kaArg (some (mergeDicts dflt o)) rfl,
      generation_call_request (some dflt) selfKA name prompt reply (some o)
        kaArg (some (mergeDicts dflt o)) rfl⟩⟩

theorem claim_C2_witness :
    lookupKey (mergeDicts
        [("temperature", Value.int 0), ("seed", Value.int 123)]
        [("seed", Value.int 7), ("top_k", Value.int 40)]) "seed" =
      some (Value.int 7) ∧
    lookupKey (mergeDicts
        [("temperature", Value.int 0), ("seed", Value.int 123)]
        [("seed", Value.int 7), ("top_k", Value.int 40)]) "temperature" =
      some (Value.int 0) ∧
    lookupKey (mergeDicts
        [("temperature", Value.int 0), ("seed", Value.int 123)]
        [("seed", Value.int 7), ("top_k", Value.int 40)]) "top_k" =
      some (Value.int 40) := by
  have h := claim_C2 [("temperature", Value.int 0), ("seed", Value.int 123)]
    [("seed", Value.int 7), ("top_k", Value.int 40)] (by decide)
  exact ⟨h.2.1 "seed" (Value.int 7) rfl,
    h.2.2.1 "temperature" rfl,
    h.2.1 "top_k" (Value.int 40) rfl⟩

/-- Claim C5 as amended: for every adapter call (any call-time options
that merge successfully, any reply), a non-empty keep_alive string
supplied at call time overrides the constructor default in the request
passed to the external client; when keep_alive is not supplied, or the
supplied string is empty, the constructor default is used unchanged.
(The empty string does not override because the source resolves
keep_alive with the Python or operator, under which the empty string is
falsy: see the counterexample.) -/
theorem claim_C5 (selfStream : Bool)
    (selfOptions callOptions opts : Option Dict)
    (selfKA name prompt : String) (messages reply : Value)
    (streamArg : Option Bool) (s : String)
    (hm : mergeOptions selfOptions callOptions = .ok opts) (hs : s ≠ "") :
    ((OllamaChatWrapper.call selfStream selfOptions selfKA name messages
        streamArg callOptions (some s) reply).request? =
      some (OllamaChatWrapper.chatKwargs name messages
        (streamArg.getD selfStream) opts s) ∧
     (OllamaChatWrapper.call selfStream selfOptions selfKA name messages
        streamArg callOptions none reply).request? =
      some (OllamaChatWrapper.chatKwargs name messages
        (streamArg.getD selfStream) opts selfKA) ∧
     (OllamaChatWrapper.call selfStream selfOptions selfKA name messages
        streamArg callOptions (some "") reply).request? =
      some (OllamaChatWrapper.chatKwargs name messages
        (streamArg.getD selfStream) opts selfKA)) ∧
    ((OllamaEmbeddingWrapper.call selfOptions selfKA name prompt
        callOptions (some s) reply).request? =
      some (OllamaEmbeddingWrapper.embeddingArgs name prompt opts s) ∧
     (OllamaEmbeddingWrapper.call selfOptions selfKA name prompt
        callOptions none reply).request? =
      some (OllamaEmbeddingWrapper.embeddingArgs name prompt opts selfKA) ∧
     (OllamaEmbeddingWrapper.call selfOptions selfKA name prompt
        callOptions (some "") reply).request? =
      some (OllamaEmbeddingWrapper.embeddingArgs name prompt opts
        selfKA)) ∧
    ((OllamaGenerationWrapper.call selfOptions selfKA name prompt
        callOptions (some s) reply).request? =
      some (OllamaGenerationWrapper.generationArgs name prompt opts s) ∧
     (OllamaGenerationWrapper.call selfOptions selfKA name prompt
        callOptions none reply).request? =
      some (OllamaGenerationWrapper.generationArgs name prompt opts
        selfKA) ∧
     (OllamaGenerationWrapper.call selfOptions selfKA name prompt
        callOptions (some "") reply).request? =
      some (OllamaGenerationWrapper.generationArgs name prompt opts
        selfKA)) := by
  have hres : resolveKeepAlive (some s) selfKA = s := by
    simp [resolveKeepAlive, hs]
  have hempty : resolveKeepAlive (some "") selfKA = selfKA := by
    simp [resolveKeepAlive]
  refine ⟨⟨?_, ?_, ?_⟩, ⟨?_, ?_, ?_⟩, ⟨?_, ?_, ?_⟩⟩
  · rw [chat_call_request selfStream selfOptions selfKA name messages reply
      streamArg callOptions (some s) opts hm, hres]
  · exact chat_call_request selfStream selfOptions selfKA name messages
      reply streamArg callOptions none opts hm
  · rw [chat_call_request selfStream selfOptions selfKA name messages reply
      streamArg callOptions (some "") opts hm, hempty]
  · rw [embedding_call_request selfOptions selfKA name prompt reply
      callOptions (some s) opts hm, hres]
  · exact embedding_call_request selfOptions selfKA name prompt reply
      callOptions none opts hm
  · rw [embedding_call_request selfOptions selfKA name prompt reply
      callOptions (some "") opts hm, hempty]
  · rw [generation_call_request selfOptions selfKA name prompt reply
      callOptions (some s) opts hm, hres]
  · exact generation_call_request selfOptions selfKA name prompt reply
      callOptions none opts hm
  · rw [generation_call_request selfOptions selfKA name prompt reply
      callOptions (some "") opts hm, hempty]

theorem claim_C5_witness :
    ((OllamaEmbeddingWrapper.call (some [("temperature", Value.int 0)])
        "5m" "m" "p" (some [("seed", Value.int 7)]) (some "10m")
        Value.null).request? =
      some (OllamaEmbeddingWrapper.embeddingArgs "m" "p"
        (some (mergeDicts [("temperature", Value.int 0)]
          [("seed", Value.int 7)])) "10m")) ∧
    ((OllamaEmbeddingWrapper.call (some [("temperature", Value.int 0)])
        "5m" "m" "p" (some [("seed", Value.int 7)]) none
        Value.null).request? =
      some (OllamaEmbeddingWrapper.embeddingArgs "m" "p"
        (some (mergeDicts [("temperature", Value.int 0)]
          [("seed", Value.int 7)])) "5m")) ∧
    ((OllamaEmbeddingWrapper.call (some [("temperature", Value.int 0)])
        "5m" "m" "p" (some [("seed", Value.int 7)]) (some "")
        Value.null).request? =
      some (OllamaEmbeddingWrapper.embeddingArgs "m" "p"
        (some (mergeDicts [("temperature", Value.int 0)]
          [("seed", Value.int 7)])) "5m")) ∧
    ((OllamaChatWrapper.call false (some [("temperature", Value.int 0)])
        "5m" "m" Value.null none (some [("seed", Value.int 7)]) (some "")
        Value.null).request? =
      some (OllamaChatWrapper.chatKwargs "m" Value.null false
        (some (mergeDicts [("temperature", Value.int 0)]
          [("seed", Value.int 7)])) "5m")) ∧
    ((OllamaGenerationWrapper.call (some [("temperature", Value.int 0)])
        "5m" "m" "p" (some [("seed", Value.int 7)]) (some "")
        Value.null).request? =
      some (OllamaGenerationWrapper.generationArgs "m" "p"
        (some (mergeDicts [("temperature", Value.int 0)]
          [("seed", Value.int 7)])) "5m")) := by
  have h := claim_C5 false (some [("temperature", Value.int 0)])
    (some [("seed", Value.int 7)])
    (some (mergeDicts [("temperature", Value.int 0)]
      [("seed", Value.int 7)]))
    "5m" "m" "p" Value.null Value.null none "10m" rfl (by decide)
  exact ⟨h.2.1.1, h.2.1.2.1, h.2.1.2.2, h.1.2.2, h.2.2.2.2⟩

/-- Claim C5 counterexample: the original claim fails for a call-supplied
empty keep_alive string: the embedding adapter called with keep_alive ""
passes the constructor default "5m" to the client, not the supplied
value. -/
theorem claim_C5_counterexample :
    (OllamaEmbeddingWrapper.call none "5m" "m" "p" none (some "")
        (.obj [("embedding", .arr [])])).request? =
      some (OllamaEmbeddingWrapper.embeddingArgs "m" "p" none "5m") ∧
    "5m" ≠ "" := ⟨rfl, by decide⟩

/-- Claim C9 (implicit): when an adapter was constructed without default
options (None), supplying options at call time makes the option-merge
step raise a TypeError (None is unpacked as a mapping), so the external
client is never invoked: every call path ends in earlyError before a
request is formed, whatever the client would have replied. -/
theorem claim_C9 (o : Dict) (selfStream : Bool) (selfKA name prompt : String)
    (messages reply : Value) (streamArg : Option Bool) (kaArg : Option String)
    (chunks : List Value) :
    OllamaChatWrapper.call selfStream none selfKA name messages streamArg
        (some o) kaArg reply = .earlyError .typeError ∧
    OllamaChatWrapper.callStream selfStream none selfKA name messages
        streamArg (some o) kaArg chunks = .error .typeError ∧
    OllamaEmbeddingWrapper.call none selfKA name prompt (some o) kaArg
        reply = .earlyError .typeError ∧
    OllamaGenerationWrapper.call none selfKA name prompt (some o) kaArg
        reply = .earlyError .typeError :=
  ⟨rfl, rfl, rfl, rfl⟩

theorem chunksContents_cons_ok (c : Value) (rest : List Value)
    (ss : List String) (h : chunksContents (c :: rest) = some ss) :
    ∃ s ss', OllamaChatWrapper.getContent c = .ok s ∧
      chunksContents rest = some ss' ∧ ss = s :: ss' := by
  simp only [chunksContents] at h
  rcases hc : OllamaChatWrapper.getContent c with e | s <;> rw [hc] at h
  · simp at h
  · rcases hr : chunksContents rest with _ | ss' <;> rw [hr] at h
    · simp at h
    · refine ⟨s, ss', rfl, rfl, ?_⟩
      simpa using h.symm

theorem streamLoop_eq (chunks : List Value) :
    ∀ (ss : List String) (t : String) (last : Value),
      chunksContents chunks = some ss →
      OllamaChatWrapper.streamLoop chunks t last =
        (cumFrom t ss, t ++ concatAll ss, chunks.getLastD last, none) := by
  induction chunks with
  | nil =>
    intro ss t last h
    obtain rfl : ([] : List String) = ss := by simpa [chunksContents] using h
    simp [OllamaChatWrapper.streamLoop, cumFrom, concatAll]
  | cons c rest ih =>
    intro ss t last h
    obtain ⟨s, ss', hc, hr, rfl⟩ := chunksContents_cons_ok c rest ss h
    simp only [OllamaChatWrapper.streamLoop, hc]
    rw [ih ss' (t ++ s) c hr, List.getLastD_cons]
    simp [cumFrom, concatAll, String.append_assoc]

theorem getContent_ok_shape (c : Value) (s : String)
    (h : OllamaChatWrapper.getContent c = .ok s) :
    ∃ d m, c = .obj d ∧ lookupKey d "message" = some (.obj m) ∧
      lookupKey m "content" = some (.str s) := by
  rcases c with _ | b | i | q | st | l | d
  · simp [OllamaChatWrapper.getContent, getItem] at h
  · simp [OllamaChatWrapper.getContent, getItem] at h
  · simp [OllamaChatWrapper.getContent, getItem] at h
  · simp [OllamaChatWrapper.getContent, getItem] at h
  · simp [OllamaChatWrapper.getContent, getItem] at h
  · simp [OllamaChatWrapper.getContent, getItem] at h
  · simp only [OllamaChatWrapper.getContent, getItem] at h
    rcases hm : lookupKey d "message" with _ | mv
    · simp [hm] at h
    · simp only [hm] at h
      rcases mv with _ | b2 | i2 | q2 | st2 | l2 | m
      · simp at h
      · simp at h
      · simp at h
      · simp at h
      · simp at h
      · simp at h
      · rcases hc : lookupKey m "content" with _ | cv
        · simp [hc] at h
        · simp only [hc] at h
          rcases cv with _ | b3 | i3 | q3 | st3 | l3 | d3
          · simp at h
          · simp at h
          · simp at h
          · simp at h
          · refine ⟨d, m, rfl, hm, ?_⟩
            rw [hc]
            have hst : st3 = s := by simpa using h
            rw [hst]
          · simp at h
          · simp at h

theorem getLastD_mem_of_ne_nil (chunks : List Value) (dflt : Value)
    (h : chunks ≠ []) : chunks.getLastD dflt ∈ chunks := by
  cases chunks with
  | nil => exact absurd rfl h
  | cons c rest =>
    rw [List.getLastD_cons]
    exact List.getLastD_mem_cons rest c

theorem chunksContents_forall (chunks : List Value) (ss : List String)
    (h : chunksContents chunks = some ss) :
    ∀ c ∈ chunks, ∃ s, OllamaChatWrapper.getContent c = .ok s := by
  induction chunks generalizing ss with
  | nil => intro c hc; simp at hc
  | cons c0 rest ih =>
    intro c hc
    obtain ⟨s, ss', hc0, hr, rfl⟩ := chunksContents_cons_ok c0 rest ss h
    rcases List.mem_cons.mp hc with rfl | hmem
    · exact ⟨s, hc0⟩
    · exact ih ss' hr c hmem

theorem runGenerator_eq (name : String) (kwargs : Value)
    (chunks : List Value) (ss : List String)
    (h : chunksContents chunks = some ss) (hne : chunks ≠ []) :
    ∃ d m, chunks.getLastD (.obj []) = .obj d ∧
      lookupKey d "message" = some (.obj m) ∧
      OllamaChatWrapper.runGenerator name kwargs chunks =
        ⟨cumFrom "" ss,
         OllamaChatWrapper.saveAndUpdateMonitor name kwargs
           (.obj (insertKey d "message"
             (.obj (insertKey m "content" (.str (concatAll ss)))))),
         none⟩ := by
  obtain ⟨s, hs⟩ := chunksContents_forall chunks ss h _
    (getLastD_mem_of_ne_nil chunks (.obj []) hne)
  obtain ⟨d, m, hd, hm2, hc2⟩ := getContent_ok_shape _ _ hs
  refine ⟨d, m, hd, hm2, ?_⟩
  unfold OllamaChatWrapper.runGenerator
  rw [streamLoop_eq chunks ss "" (.obj []) h]
  dsimp only
  rw [hd]
  simp [OllamaChatWrapper.replaceLastChunk, hm2]

theorem saveAndUpdateMonitor_filter (name : String) (kwargs response : Value) :
    (OllamaChatWrapper.saveAndUpdateMonitor name kwargs response).filter
      Event.isSave =
    [Event.saveInvocation kwargs response (formatUsage response)] := by
  unfold OllamaChatWrapper.saveAndUpdateMonitor
  cases formatUsage response <;> simp [Event.isSave]

theorem getContent_replaced (d m : Dict) (t : String) :
    OllamaChatWrapper.getContent (.obj (insertKey d "message"
      (.obj (insertKey m "content" (.str t))))) = .ok t := by
  simp [OllamaChatWrapper.getContent, getItem, lookupKey_insertKey_self]

/-- Claim C1: for every streaming chat call whose stream yields a
non-empty finite chunk list carrying message/content strings ss, the lazy
sequence yields, chunk by chunk, the cumulative concatenations of ss (the
entire text so far, not deltas); on natural exhaustion the last received
chunk's message/content field is overwritten with the full accumulated
text, the invocation-recording routine runs exactly once, and it receives
that overwritten chunk as the raw reply, whose message/content equals the
full text.  The witness instantiates the chunks ["A"-chunk, "B"-chunk]:
the yields are "A" then "AB" and the recorded reply carries "AB". -/
theorem claim_C1 (selfStream : Bool)
    (selfOptions callOptions opts : Option Dict) (selfKA name : String)
    (messages : Value) (streamArg : Option Bool) (kaArg : Option String)
    (chunks : List Value) (ss : List String)
    (hm : mergeOptions selfOptions callOptions = .ok opts)
    (hc : chunksContents chunks = some ss) (hne : chunks ≠ []) :
    ∃ d m kwargs mutated,
      kwargs = OllamaChatWrapper.chatKwargs name messages
        (streamArg.getD selfStream) opts (resolveKeepAlive kaArg selfKA) ∧
      chunks.getLastD (.obj []) = .obj d ∧
      lookupKey d "message" = some (.obj m) ∧
      mutated = Value.obj (insertKey d "message"
        (.obj (insertKey m "content" (.str (concatAll ss))))) ∧
      OllamaChatWrapper.callStream selfStream selfOptions selfKA name
          messages streamArg callOptions kaArg chunks =
        .ok (kwargs,
          ⟨cumFrom "" ss,
           OllamaChatWrapper.saveAndUpdateMonitor name kwargs mutated,
           none⟩) ∧
      (OllamaChatWrapper.saveAndUpdateMonitor name kwargs mutated).filter
          Event.isSave =
        [Event.saveInvocation kwargs mutated (formatUsage mutated)] ∧
      OllamaChatWrapper.getContent mutated = .ok (concatAll ss) := by
  obtain ⟨d, m, hd, hm2, hrun⟩ := runGenerator_eq name
    (OllamaChatWrapper.chatKwargs name messages (streamArg.getD selfStream)
      opts (resolveKeepAlive kaArg selfKA)) chunks ss hc hne
  refine ⟨d, m, _, _, rfl, hd, hm2, rfl, ?_,
    saveAndUpdateMonitor_filter _ _ _,
    getContent_replaced d m (concatAll ss)⟩
  unfold OllamaChatWrapper.callStream
  rw [hm]
  dsimp only
  rw [hrun]

theorem claim_C1_witness :
    chunksContents
        [Value.obj [("message", Value.obj [("content", Value.str "A")])],
         Value.obj [("message", Value.obj [("content", Value.str "B")])]] =
      some ["A", "B"] ∧
    (∃ d m kwargs mutated,
      kwargs = OllamaChatWrapper.chatKwargs "m" Value.null false none "5m" ∧
      ([Value.obj [("message", Value.obj [("content", Value.str "A")])],
        Value.obj [("message", Value.obj [("content", Value.str "B")])]].getLastD
          (Value.obj [])) = .obj d ∧
      lookupKey d "message" = some (.obj m) ∧
      mutated = Value.obj (insertKey d "message"
        (.obj (insertKey m "content" (.str (concatAll ["A", "B"]))))) ∧
      OllamaChatWrapper.callStream false none "5m" "m" Value.null none none
          none
          [Value.obj [("message", Value.obj [("content", Value.str "A")])],
           Value.obj [("message", Value.obj [("content", Value.str "B")])]] =
        .ok (kwargs,
          ⟨cumFrom "" ["A", "B"],
           OllamaChatWrapper.saveAndUpdateMonitor "m" kwargs mutated,
           none⟩) ∧
      (OllamaChatWrapper.saveAndUpdateMonitor "m" kwargs mutated).filter
          Event.isSave =
        [Event.saveInvocation kwargs mutated (formatUsage mutated)] ∧
      OllamaChatWrapper.getContent mutated = .ok (concatAll ["A", "B"])) :=
  ⟨rfl, claim_C1 false none none none "5m" "m" Value.null none none
    [Value.obj [("message", Value.obj [("content", Value.str "A")])],
     Value.obj [("message", Value.obj [("content", Value.str "B")])]]
    ["A", "B"] rfl rfl (by simp)⟩

/-- Claim C10 (implicit): a streaming chat call whose stream yields zero
chunks: consuming the lazy sequence to exhaustion yields nothing, then
the final-chunk substitution indexes the "message" field of the empty
placeholder dict and raises a KeyError; no event is performed, so the
invocation-recording routine is never called. -/
theorem claim_C10 (selfStream : Bool)
    (selfOptions callOptions opts : Option Dict) (selfKA name : String)
    (messages : Value) (streamArg : Option Bool) (kaArg : Option String)
    (hm : mergeOptions selfOptions callOptions = .ok opts) :
    OllamaChatWrapper.callStream selfStream selfOptions selfKA name messages
        streamArg callOptions kaArg [] =
      .ok (OllamaChatWrapper.chatKwargs name messages
             (streamArg.getD selfStream) opts
             (resolveKeepAlive kaArg selfKA),
           ⟨[], [], some (.keyError "message")⟩) := by
  unfold OllamaChatWrapper.callStream
  rw [hm]
  rfl

theorem claim_C10_witness :
    mergeOptions none none = .ok none ∧
    OllamaChatWrapper.callStream false none "5m" "m" Value.null none none
        none [] =
      .ok (OllamaChatWrapper.chatKwargs "m" Value.null false none "5m",
           ⟨[], [], some (.keyError "message")⟩) :=
  ⟨rfl, claim_C10 false none none none "5m" "m" Value.null none none rfl⟩

/-- Claim C4: a non-streaming chat call whose reply carries message
content "hi" and counters prompt_eval_count 5 and eval_count 3 returns an
envelope with text "hi" and raw the full reply, and the recorder receives
a usage record (5, 3). -/
theorem claim_C4 (selfStream : Bool)
    (selfOptions callOptions opts : Option Dict) (selfKA name : String)
    (messages : Value) (streamArg : Option Bool) (kaArg : Option String)
    (hm : mergeOptions selfOptions callOptions = .ok opts) :
    OllamaChatWrapper.call selfStream selfOptions selfKA name messages
        streamArg callOptions kaArg
        (.obj [("message", .obj [("content", .str "hi")]),
               ("prompt_eval_count", .int 5), ("eval_count", .int 3)]) =
      .success
        (OllamaChatWrapper.chatKwargs name messages
          (streamArg.getD selfStream) opts (resolveKeepAlive kaArg selfKA))
        ⟨some (.str "hi"), none,
         .obj [("message", .obj [("content", .str "hi")]),
               ("prompt_eval_count", .int 5), ("eval_count", .int 3)]⟩
        [Event.monitorUpdate name none none,
         Event.saveInvocation
           (OllamaChatWrapper.chatKwargs name messages
             (streamArg.getD selfStream) opts
             (resolveKeepAlive kaArg selfKA))
           (.obj [("message", .obj [("content", .str "hi")]),
                  ("prompt_eval_count", .int 5), ("eval_count", .int 3)])
           (some ⟨.int 5, .int 3⟩)] := by
  unfold OllamaChatWrapper.call
  rw [hm]
  rfl

theorem claim_C4_witness :
    mergeOptions none none = .ok none ∧
    OllamaChatWrapper.call false none "5m" "m" Value.null none none none
        (.obj [("message", .obj [("content", .str "hi")]),
               ("prompt_eval_count", .int 5), ("eval_count", .int 3)]) =
      .success (OllamaChatWrapper.chatKwargs "m" Value.null false none "5m")
        ⟨some (.str "hi"), none,
         .obj [("message", .obj [("content", .str "hi")]),
               ("prompt_eval_count", .int 5), ("eval_count", .int 3)]⟩
        [Event.monitorUpdate "m" none none,
         Event.saveInvocation
           (OllamaChatWrapper.chatKwargs "m" Value.null false none "5m")
           (.obj [("message", .obj [("content", .str "hi")]),
                  ("prompt_eval_count", .int 5), ("eval_count", .int 3)])
           (some ⟨.int 5, .int 3⟩)] :=
  ⟨rfl, claim_C4 false none none none "5m" "m" Value.null none none rfl⟩

/-- Claim C6: every embedding call records the invocation and updates the
monitor unconditionally (no usage record is involved), and the envelope's
embedding payload is the one-element list holding the reply's embedding
vector, with the raw reply passed through unchanged.  The witness
instantiates the reply with embedding vector [0.1, 0.2], whose envelope
payload is [[0.1, 0.2]]. -/
theorem claim_C6 (selfOptions callOptions opts : Option Dict)
    (selfKA name prompt : String) (kaArg : Option String) (d : Dict)
    (v : Value) (hm : mergeOptions selfOptions callOptions = .ok opts)
    (hv : lookupKey d "embedding" = some v) :
    OllamaEmbeddingWrapper.call selfOptions selfKA name prompt callOptions
        kaArg (.obj d) =
      .success
        (OllamaEmbeddingWrapper.embeddingArgs name prompt opts
          (resolveKeepAlive kaArg selfKA))
        ⟨none, some (.arr [v]), .obj d⟩
        [Event.saveInvocation
           (OllamaEmbeddingWrapper.embeddingArgs name prompt opts
             (resolveKeepAlive kaArg selfKA)) (.obj d) none,
         Event.monitorUpdate name none none] := by
  unfold OllamaEmbeddingWrapper.call
  rw [hm]
  dsimp only
  simp only [getItem, hv]

theorem claim_C6_witness :
    lookupKey [("embedding", Value.arr [Value.num (1/10), Value.num (2/10)])]
        "embedding" = some (Value.arr [Value.num (1/10), Value.num (2/10)]) ∧
    OllamaEmbeddingWrapper.call none "5m" "m" "p" none none
        (.obj [("embedding",
          Value.arr [Value.num (1/10), Value.num (2/10)])]) =
      .success (OllamaEmbeddingWrapper.embeddingArgs "m" "p" none "5m")
        ⟨none,
         some (.arr [Value.arr [Value.num (1/10), Value.num (2/10)]]),
         .obj [("embedding",
           Value.arr [Value.num (1/10), Value.num (2/10)])]⟩
        [Event.saveInvocation
           (OllamaEmbeddingWrapper.embeddingArgs "m" "p" none "5m")
           (.obj [("embedding",
             Value.arr [Value.num (1/10), Value.num (2/10)])]) none,
         Event.monitorUpdate "m" none none] :=
  ⟨rfl, claim_C6 none none none "5m" "m" "p" none
    [("embedding", Value.arr [Value.num (1/10), Value.num (2/10)])]
    (Value.arr [Value.num (1/10), Value.num (2/10)]) rfl rfl⟩

/-- Claim C7: a generation call whose reply lacks prompt_eval_count
creates no usage record, performs no monitor update (the only event is
the invocation record with usage None), and still populates the
envelope's text from the reply's response field. -/
theorem claim_C7 (selfOptions callOptions opts : Option Dict)
    (selfKA name prompt : String) (kaArg : Option String) (d : Dict)
    (t : Value) (hm : mergeOptions selfOptions callOptions = .ok opts)
    (hp : lookupKey d "prompt_eval_count" = none)
    (ht : lookupKey d "response" = some t) :
    OllamaGenerationWrapper.call selfOptions selfKA name prompt callOptions
        kaArg (.obj d) =
      .success
        (OllamaGenerationWrapper.generationArgs name prompt opts
          (resolveKeepAlive kaArg selfKA))
        ⟨some t, none, .obj d⟩
        [Event.saveInvocation
           (OllamaGenerationWrapper.generationArgs name prompt opts
             (resolveKeepAlive kaArg selfKA)) (.obj d) none] := by
  unfold OllamaGenerationWrapper.call
  rw [hm]
  dsimp only
  simp [formatUsage, containsKey, hp, getItem, ht]

theorem claim_C7_witness :
    lookupKey [("response", Value.str "ok")] "prompt_eval_count" = none ∧
    lookupKey [("response", Value.str "ok")] "response" =
      some (Value.str "ok") ∧
    OllamaGenerationWrapper.call none "5m" "m" "p" none none
        (.obj [("response", Value.str "ok")]) =
      .success (OllamaGenerationWrapper.generationArgs "m" "p" none "5m")
        ⟨some (Value.str "ok"), none, .obj [("response", Value.str "ok")]⟩
        [Event.saveInvocation
           (OllamaGenerationWrapper.generationArgs "m" "p" none "5m")
           (.obj [("response", Value.str "ok")]) none] :=
  ⟨rfl, rfl, claim_C7 none none none "5m" "m" "p" none
    [("response", Value.str "ok")] (Value.str "ok") rfl rfl rfl⟩

/-- Claim C8: a non-streaming chat call whose reply dict lacks the
message field fails with a KeyError (the MalformedReply of the spec,
propagated with no recovery or default filling); likewise the embedding
call when the reply lacks an embedding field and the generation call when
it lacks a response field. -/
theorem claim_C8 (selfStream : Bool)
    (selfOptions callOptions opts : Option Dict) (selfKA name prompt : String)
    (messages : Value) (streamArg : Option Bool) (kaArg : Option String)
    (hm : mergeOptions selfOptions callOptions = .ok opts) :
    (∀ d : Dict, lookupKey d "message" = none →
      ∃ ev, OllamaChatWrapper.call selfStream selfOptions selfKA name
          messages streamArg callOptions kaArg (.obj d) =
        .callError (OllamaChatWrapper.chatKwargs name messages
            (streamArg.getD selfStream) opts (resolveKeepAlive kaArg selfKA))
          ev (.keyError "message")) ∧
    (∀ d : Dict, lookupKey d "embedding" = none →
      OllamaEmbeddingWrapper.call selfOptions selfKA name prompt callOptions
          kaArg (.obj d) =
        .callError (OllamaEmbeddingWrapper.embeddingArgs name prompt opts
            (resolveKeepAlive kaArg selfKA))
          [Event.saveInvocation (OllamaEmbeddingWrapper.embeddingArgs name
             prompt opts (resolveKeepAlive kaArg selfKA)) (.obj d) none,
           Event.monitorUpdate name none none]
          (.keyError "embedding")) ∧
    (∀ d : Dict, lookupKey d "response" = none →
      ∃ ev, OllamaGenerationWrapper.call selfOptions selfKA name prompt
          callOptions kaArg (.obj d) =
        .callError (OllamaGenerationWrapper.generationArgs name prompt opts
            (resolveKeepAlive kaArg selfKA))
          ev (.keyError "response")) := by
  refine ⟨?_, ?_, ?_⟩
  · intro d hd
    unfold OllamaChatWrapper.call
    rw [hm]
    dsimp only
    simp only [getItem, hd]
    exact ⟨_, rfl⟩
  · intro d hd
    unfold OllamaEmbeddingWrapper.call
    rw [hm]
    dsimp only
    simp only [getItem, hd]
  · intro d hd
    unfold OllamaGenerationWrapper.call
    rw [hm]
    dsimp only
    simp only [getItem, hd]
    exact ⟨_, rfl⟩

theorem claim_C8_witness :
    (∃ ev, OllamaChatWrapper.call false none "5m" "m" Value.null none none
        none (.obj []) =
      .callError (OllamaChatWrapper.chatKwargs "m" Value.null false none
          "5m") ev (.keyError "message")) ∧
    (OllamaEmbeddingWrapper.call none "5m" "m" "p" none none (.obj []) =
      .callError (OllamaEmbeddingWrapper.embeddingArgs "m" "p" none "5m")
        [Event.saveInvocation
           (OllamaEmbeddingWrapper.embeddingArgs "m" "p" none "5m")
           (.obj []) none,
         Event.monitorUpdate "m" none none]
        (.keyError "embedding")) ∧
    (∃ ev, OllamaGenerationWrapper.call none "5m" "m" "p" none none
        (.obj []) =
      .callError (OllamaGenerationWrapper.generationArgs "m" "p" none "5m")
        ev (.keyError "response")) := by
  have h := claim_C8 false none none none "5m" "m" "p" Value.null none
    none rfl
  exact ⟨h.1 [] rfl, h.2.1 [] rfl, h.2.2 [] rfl⟩

/-- Claim C3 as amended: when a usage record is created, the generation
adapter updates the monitor with the usage record's prompt and completion
token counts, while the chat adapter updates the monitor with only the
model name, passing no token counts at all (the inconsistency the spec's
design notes flag as an open question); the invocation record itself
receives the usage record in both paths. -/
theorem claim_C3 (selfOptions callOptions opts : Option Dict)
    (selfKA name prompt : String) (kaArg : Option String) (d : Dict)
    (pv ev t : Value)
    (hm : mergeOptions selfOptions callOptions = .ok opts)
    (hp : lookupKey d "prompt_eval_count" = some pv)
    (he : lookupKey d "eval_count" = some ev)
    (ht : lookupKey d "response" = some t) :
    OllamaGenerationWrapper.call selfOptions selfKA name prompt callOptions
        kaArg (.obj d) =
      .success
        (OllamaGenerationWrapper.generationArgs name prompt opts
          (resolveKeepAlive kaArg selfKA))
        ⟨some t, none, .obj d⟩
        [Event.saveInvocation
           (OllamaGenerationWrapper.generationArgs name prompt opts
             (resolveKeepAlive kaArg selfKA)) (.obj d) (some ⟨pv, ev⟩),
         Event.monitorUpdate name (some pv) (some ev)] ∧
    (∀ kwargs response, formatUsage response = some ⟨pv, ev⟩ →
      OllamaChatWrapper.saveAndUpdateMonitor name kwargs response =
        [Event.monitorUpdate name none none,
         Event.saveInvocation kwargs response (some ⟨pv, ev⟩)]) := by
  constructor
  · unfold OllamaGenerationWrapper.call
    rw [hm]
    dsimp only
    simp [formatUsage, containsKey, getDefault, hp, he, getItem, ht]
  · intro kwargs response hu
    unfold OllamaChatWrapper.saveAndUpdateMonitor
    dsimp only
    rw [hu]
    rfl

theorem claim_C3_witness :
    (OllamaGenerationWrapper.call none "5m" "m" "p" none none
        (.obj [("response", Value.str "ok"),
               ("prompt_eval_count", Value.int 5),
               ("eval_count", Value.int 3)]) =
      .success (OllamaGenerationWrapper.generationArgs "m" "p" none "5m")
        ⟨some (Value.str "ok"), none,
         .obj [("response", Value.str "ok"),
               ("prompt_eval_count", Value.int 5),
               ("eval_count", Value.int 3)]⟩
        [Event.saveInvocation
           (OllamaGenerationWrapper.generationArgs "m" "p" none "5m")
           (.obj [("response", Value.str "ok"),
                  ("prompt_eval_count", Value.int 5),
                  ("eval_count", Value.int 3)])
           (some ⟨Value.int 5, Value.int 3⟩),
         Event.monitorUpdate "m" (some (Value.int 5))
           (some (Value.int 3))]) ∧
    OllamaChatWrapper.saveAndUpdateMonitor "m" Value.null
        (.obj [("response", Value.str "ok"),
               ("prompt_eval_count", Value.int 5),
               ("eval_count", Value.int 3)]) =
      [Event.monitorUpdate "m" none none,
       Event.saveInvocation Value.null
         (.obj [("response", Value.str "ok"),
                ("prompt_eval_count", Value.int 5),
                ("eval_count", Value.int 3)])
         (some ⟨Value.int 5, Value.int 3⟩)] := by
  have h := claim_C3 none none none "5m" "m" "p" none
    [("response", Value.str "ok"), ("prompt_eval_count", Value.int 5),
     ("eval_count", Value.int 3)]
    (Value.int 5) (Value.int 3) (Value.str "ok") rfl rfl rfl rfl
  exact ⟨h.1, h.2 Value.null _ rfl⟩

/-- Claim C3 counterexample: the claim as stated fails on the chat path:
a non-streaming chat call whose reply creates the usage record (5, 3)
updates the monitor with no token counts at all (both count arguments
absent), not with the usage record's values. -/
theorem claim_C3_counterexample :
    OllamaChatWrapper.call false none "5m" "m" Value.null none none none
        (.obj [("message", .obj [("content", .str "hi")]),
               ("prompt_eval_count", .int 5), ("eval_count", .int 3)]) =
      .success (OllamaChatWrapper.chatKwargs "m" Value.null false none "5m")
        ⟨some (.str "hi"), none,
         .obj [("message", .obj [("content", .str "hi")]),
               ("prompt_eval_count", .int 5), ("eval_count", .int 3)]⟩
        [Event.monitorUpdate "m" none none,
         Event.saveInvocation
           (OllamaChatWrapper.chatKwargs "m" Value.null false none "5m")
           (.obj [("message", .obj [("content", .str "hi")]),
                  ("prompt_eval_count", .int 5), ("eval_count", .int 3)])
           (some ⟨.int 5, .int 3⟩)] ∧
    (none : Option Value) ≠ some (Value.int 5) ∧
    (none : Option Value) ≠ some (Value.int 3) :=
  ⟨rfl, by simp, by simp⟩

end Ollama
